import Mathlib

/-!
Verification of the AIAR-Guitar real-time gesture-to-audio pipeline.

This file gives a shallow embedding of the decision pipeline of the
repository (frontend/components/Vision/HandTracker.tsx,
frontend/hooks/useWebSocket.ts, frontend/config/constants.ts and the
AudioEngine module) and proves/refutes the specification claims about it.

Modelling conventions:
* JavaScript numbers are modelled as rationals (`ℚ`); all the guards and
  arithmetic of the embedded code are exact on the inputs we consider.
* The library `lib/math.ts` is imported by the embedded files but is not
  part of the provided sources; its functions are modelled from the spec
  (each such definition is marked `Modelled from the spec:`).  Two of them
  (`magnitude`, i.e. the Euclidean norm, and `velocityToGain`, a lerp with
  a fractional power) are irrational-valued, so the engine is parametrised
  over them (`mag`, `v2g`); every theorem below holds for every
  instantiation, in particular for the real Euclidean norm and the real
  gamma-lerp.  Concrete witnesses instantiate `mag` with a function that
  agrees with the Euclidean norm on the (axis-aligned) vectors they use.
* The Zustand store (`stores/useStore.ts`, staged in the sources inside
  frontend/jest.setup.js after the document boundary) is embedded as a
  plain record holding the slice of its state the embedded code paths read
  and write, with the store's setters as record updates and its documented
  defaults as the initial state.
-/

namespace AIAR

/-- Single 3D point (types/landmarks.ts `Point3D`). -/
structure Point3D where
  x : ℚ
  y : ℚ
  z : ℚ
deriving DecidableEq, Repr

instance : Inhabited Point3D := ⟨⟨0, 0, 0⟩⟩

/-- Strum direction (`'up' | 'down'` in types/landmarks.ts). -/
inductive StrumDirection where
  | up
  | down
deriving DecidableEq, Repr

/-- Strum event (types/landmarks.ts `StrumEvent`). -/
structure StrumEvent where
  timestamp : ℚ
  stringIndex : ℤ
  fretIndex : ℤ
  velocity : ℚ
  direction : StrumDirection
deriving DecidableEq, Repr

/-- Strum state (types/landmarks.ts `StrumState`). -/
structure StrumState where
  lastPosition : Option Point3D
  lastTimestamp : ℚ
  velocity : ℚ
  isStrumming : Bool
deriving DecidableEq, Repr

/-- Successful inference result (types/ws.ts `InferenceResult`). -/
structure InferenceResult where
  timestamp : ℚ
  chord_id : String
  confidence : ℚ
  fingering_map : List ℤ
  correction_active : Bool
  override_notes : Option (List ℤ)
  message : Option String
deriving DecidableEq, Repr

/-- Server message union (types/ws.ts `ServerMessage`). -/
inductive ServerMessage where
  | result (r : InferenceResult)
  | error (code : String) (msg : String)
deriving DecidableEq, Repr

-- ==============================================
-- Constants (frontend/config/constants.ts)
-- ==============================================

/-- Entry of `GUITAR_TUNING` in constants.ts. -/
structure TuningEntry where
  note : String
  midi : ℤ
  frequency : ℚ
  string : ℕ
deriving DecidableEq, Repr

instance : Inhabited TuningEntry := ⟨⟨"E2", 40, 8241/100, 0⟩⟩

/-- Standard guitar tuning (constants.ts `GUITAR_TUNING`). -/
def GUITAR_TUNING : List TuningEntry :=
  [ ⟨"E2", 40, 8241/100, 0⟩,
    ⟨"A2", 45, 110, 1⟩,
    ⟨"D3", 50, 14683/100, 2⟩,
    ⟨"G3", 55, 196, 3⟩,
    ⟨"B3", 59, 24694/100, 4⟩,
    ⟨"E4", 64, 32963/100, 5⟩ ]

/-- constants.ts `NUM_FRETS`. -/
def NUM_FRETS : ℕ := 12

/-- constants.ts `EMA_ALPHA`. -/
def EMA_ALPHA : ℚ := 3/10

/-- constants.ts `STRUM_SPEED_THRESHOLD`. -/
def STRUM_SPEED_THRESHOLD : ℚ := 15/100

/-- constants.ts `STRUM_SPEED_MAX`. -/
def STRUM_SPEED_MAX : ℚ := 8/10

/-- constants.ts `STRUM_DEBOUNCE_MS`. -/
def STRUM_DEBOUNCE_MS : ℚ := 50

/-- constants.ts `AUDIO_CONFIG`. -/
structure AudioConfig where
  minGain : ℚ
  maxGain : ℚ
  gainGamma : ℚ
  attackTime : ℚ
  decayTime : ℚ
  sustainLevel : ℚ
  releaseTime : ℚ
  maxPolyphony : ℕ
deriving DecidableEq, Repr

def AUDIO_CONFIG : AudioConfig :=
  { minGain := 1/10
    maxGain := 9/10
    gainGamma := 9/10
    attackTime := 1/100
    decayTime := 1/10
    sustainLevel := 7/10
    releaseTime := 3/10
    maxPolyphony := 6 }

/-- constants.ts `WS_CONFIG`. -/
structure WsConfig where
  reconnectBaseDelay : ℚ
  reconnectMaxDelay : ℚ
  maxReconnectAttempts : ℕ
  inferenceThrottleMs : ℚ
  connectionTimeout : ℚ
deriving DecidableEq, Repr

def WS_CONFIG : WsConfig :=
  { reconnectBaseDelay := 1000
    reconnectMaxDelay := 8000
    maxReconnectAttempts := 10
    inferenceThrottleMs := 200
    connectionTimeout := 5000 }

/-- constants.ts `AI_CONFIG`. -/
structure AiConfig where
  confidenceThreshold : ℚ
  lowConfidenceThreshold : ℚ
  fallbackThreshold : ℚ
deriving DecidableEq, Repr

def AI_CONFIG : AiConfig :=
  { confidenceThreshold := 85/100
    lowConfidenceThreshold := 4/10
    fallbackThreshold := 3/10 }

-- ==============================================
-- lib/math.ts (not under src/; modelled from the spec)
-- ==============================================

/-- Modelled from the spec: `lib/math.ts` is absent from the sources.
`clamp(v, min, max)` restricts a value to a closed interval,
`min(max(v, lo), hi)` (spec §4.2: `clamp(speed / maxSpeed, 0, 1)`). -/
def clamp (v lo hi : ℚ) : ℚ := min (max v lo) hi

/-- Modelled from the spec: integer variant of `clamp` used for the string
index (`Math.floor` produces an integer which is clamped to [0,5]). -/
def clampI (v lo hi : ℤ) : ℤ := min (max v lo) hi

/-- Modelled from the spec: `subtract` from `lib/math.ts`, componentwise
vector difference. -/
def subtract (a b : Point3D) : Point3D := ⟨a.x - b.x, a.y - b.y, a.z - b.z⟩

/-- Modelled from the spec: `getFrettedMidi` from `lib/math.ts`; the sounding
pitch is the open-string pitch shifted by `fret` semitones (spec §4.5), and a
negative fret is the mute sentinel, reported as a negative MIDI value which
`playNote` rejects (spec §3 Fingering Map). -/
def getFrettedMidi (openMidi fret : ℤ) : ℤ :=
  if fret < 0 then -1 else openMidi + fret

/-- Modelled from the spec: `normalizeLandmarks` from `lib/math.ts`; each
coordinate is `(raw - anchor) / scale` (spec §4.1). -/
def normalizeLandmarks (lms : List Point3D) (anchor : Point3D) (scale : ℚ) :
    List Point3D :=
  lms.map fun p =>
    ⟨(p.x - anchor.x) / scale, (p.y - anchor.y) / scale, (p.z - anchor.z) / scale⟩

/-- Modelled from the spec: `smoothLandmarks` from `lib/math.ts`; EMA
`α·current + (1-α)·previous` componentwise, falling back to the current
landmarks when there is no previous sample (spec §4.1). -/
def smoothLandmarks (cur : List Point3D) (prev : Option (List Point3D))
    (a : ℚ) : List Point3D :=
  match prev with
  | none => cur
  | some ps =>
      List.zipWith
        (fun c p => ⟨a * c.x + (1 - a) * p.x,
                     a * c.y + (1 - a) * p.y,
                     a * c.z + (1 - a) * p.z⟩)
        cur ps

/-- Modelled from the spec: `flattenLandmarks` from `lib/math.ts`; the
63-float vector in canonical landmark order `[x0, y0, z0, x1, …]`. -/
def flattenLandmarks (lms : List Point3D) : List ℚ :=
  lms.flatMap fun p => [p.x, p.y, p.z]

-- ==============================================
-- Zustand store (stores/useStore.ts, staged inside frontend/jest.setup.js)
-- ==============================================

/-- Slice of the Zustand store (`stores/useStore.ts`) read and written by
the embedded code paths: the `AudioState` chord-correction and
audio-control fields plus `lastInferenceResult` and `wsConnected`.
`activeStrings` is a JS `Set<number>`, embedded as a `Finset ℕ`.  The
remaining fields of the store (vision hands/anchors, UI flags, latency
metrics, …) are irrelevant to the claims and omitted. -/
structure Store where
  correctionActive : Bool
  overrideNotes : List ℤ
  currentChord : String
  lastInferenceResult : Option InferenceResult
  lastStrumEvent : Option StrumEvent
  isMuted : Bool
  masterVolume : ℚ
  activeStrings : Finset ℕ
  wsConnected : Bool
deriving DecidableEq

/-- Initial store state, per `defaultAudioState` and
`defaultWebSocketState` in stores/useStore.ts: correction inactive, no
override notes, chord `'unknown'`, master volume 0.8, unmuted, no active
strings, disconnected. -/
def initStore : Store :=
  { correctionActive := false
    overrideNotes := []
    currentChord := "unknown"
    lastInferenceResult := none
    lastStrumEvent := none
    isMuted := false
    masterVolume := 8/10
    activeStrings := ∅
    wsConnected := false }

/-- The store's `addActiveString` action:
`new Set([...state.activeStrings, stringIndex])`, i.e. set insertion. -/
def addActiveString (i : ℕ) (s : Finset ℕ) : Finset ℕ :=
  insert i s

-- ==============================================
-- AudioEngine (systems/AudioEngine.ts)
-- ==============================================

/-- Observable per-voice state of `StringVoice` (AudioEngine): play/idle
flag, time of last trigger (seconds, audio clock) and last applied gain. -/
structure StringVoice where
  isPlaying : Bool
  lastNoteTime : ℚ
  gainValue : ℚ
deriving DecidableEq, Repr

instance : Inhabited StringVoice := ⟨⟨false, 0, 1/2⟩⟩

/-- Combined engine state: `AudioEngineState` (its `masterGain` Tone node
represented by the node's current gain value) plus the class field
`lastStrumTime` and the store snapshot the engine reads and writes. -/
structure EngineState where
  isInitialized : Bool
  voices : List StringVoice
  masterGainValue : ℚ
  strumState : StrumState
  lastStrumTime : ℚ
  store : Store
deriving DecidableEq

/-- State produced by `AudioEngine.initialize`: one voice per entry of
`GUITAR_TUNING`, idle, the master gain node at `AUDIO_CONFIG.maxGain`, the
initial strum state, and the store at its defaults. -/
def initEngine : EngineState :=
  { isInitialized := true
    voices := GUITAR_TUNING.map fun _ => ⟨false, 0, 1/2⟩
    masterGainValue := AUDIO_CONFIG.maxGain
    strumState := { lastPosition := none, lastTimestamp := 0, velocity := 0,
                    isStrumming := false }
    lastStrumTime := 0
    store := initStore }

/-- `AudioEngine.playNote(stringIndex, fret, velocity)` at audio-clock time
`now`.  `v2g` stands for `velocityToGain` from the missing `lib/math.ts`
(spec §4.5: `lerp(minGain, maxGain, velocity^gamma)`, irrational-valued,
hence a parameter).  Returns the new state and whether a note was
triggered.  Guard order follows the source: initialization, string-index
range, per-voice debounce, mute-sentinel fret, global mute. -/
def playNote (v2g : ℚ → ℚ → ℚ → ℚ → ℚ) (s : EngineState)
    (stringIndex fret : ℤ) (velocity now : ℚ) : EngineState × Bool :=
  if ¬ s.isInitialized then (s, false)
  else if stringIndex < 0 ∨ (s.voices.length : ℤ) ≤ stringIndex then (s, false)
  else
    let idx := stringIndex.toNat
    let voice := s.voices.getD idx default
    if now - voice.lastNoteTime < STRUM_DEBOUNCE_MS / 1000 then (s, false)
    else
      let openMidi := (GUITAR_TUNING.getD idx default).midi
      let midiNote := getFrettedMidi openMidi fret
      if midiNote < 0 then (s, false)
      else
        let gain := v2g velocity AUDIO_CONFIG.minGain AUDIO_CONFIG.maxGain
          AUDIO_CONFIG.gainGamma
        if s.store.isMuted then (s, false)
        else
          let voice' : StringVoice :=
            { isPlaying := true, lastNoteTime := now,
              gainValue := gain * s.store.masterVolume }
          ({ s with voices := s.voices.set idx voice',
                    store := { s.store with
                               activeStrings :=
                                 addActiveString idx s.store.activeStrings } },
           true)

/-- `AudioEngine.releaseNote(stringIndex)`: no-op unless the index denotes an
existing, currently playing voice. -/
def releaseNote (s : EngineState) (stringIndex : ℤ) : EngineState :=
  if ¬ s.isInitialized then s
  else if stringIndex < 0 ∨ (s.voices.length : ℤ) ≤ stringIndex then s
  else
    let idx := stringIndex.toNat
    let voice := s.voices.getD idx default
    if ¬ voice.isPlaying then s
    else
      { s with voices := s.voices.set idx { voice with isPlaying := false },
               store := { s.store with
                          activeStrings :=
                            s.store.activeStrings.erase idx } }

/-- `AudioEngine.stopAll()`: release every playing voice, then clear the
store's active strings. -/
def stopAll (s : EngineState) : EngineState :=
  if ¬ s.isInitialized then s
  else
    let s' := (List.range s.voices.length).foldl
      (fun acc i =>
        if (acc.voices.getD i default).isPlaying then releaseNote acc i else acc)
      s
    { s' with store := { s'.store with activeStrings := ∅ } }

/-- `AudioEngine.setVolume(volume)`: clamp to [0,1] and write it to the
master gain node only; the store's `masterVolume` (the value `playNote`
multiplies by) is not touched. -/
def setVolume (s : EngineState) (volume : ℚ) : EngineState :=
  if ¬ s.isInitialized then s
  else { s with masterGainValue := clamp volume 0 1 }

/-- Target string of a strum (processStrumMovement lines 272-273):
`Math.floor((1 - currentPosition.y) * 6)` clamped to [0,5]. -/
def strumStringIndex (p : Point3D) : ℤ :=
  clampI (Int.floor ((1 - p.y) * 6)) 0 5

/-- Fret resolved for a strum (processStrumMovement lines 280-286): the AI
override note translated to a fret offset (clamped at open/0) when
correction is active and the override list covers the struck string,
otherwise the geometric open-string default 0. -/
def strumFret (store : Store) (clampedString : ℤ) : ℤ :=
  if store.correctionActive ∧ clampedString < (store.overrideNotes.length : ℤ) then
    max 0 (store.overrideNotes.getD clampedString.toNat 0
      - (GUITAR_TUNING.getD clampedString.toNat default).midi)
  else 0

/-- `AudioEngine.processStrumMovement(currentPosition, timestamp)`.
`timestamp` is the frame clock in milliseconds; `toneNow` is the audio clock
in seconds read by the nested `playNote` call.  `mag` stands for `magnitude`
from the missing `lib/math.ts` (spec §4.2: Euclidean norm, irrational-valued,
hence a parameter).  Returns the emitted event (if any) and the new state. -/
def processStrumMovement (mag : Point3D → ℚ) (v2g : ℚ → ℚ → ℚ → ℚ → ℚ)
    (s : EngineState) (currentPosition : Point3D) (timestamp toneNow : ℚ) :
    Option StrumEvent × EngineState :=
  if ¬ s.isInitialized then (none, s)
  else
    match s.strumState.lastPosition with
    | none =>
        (none, { s with strumState :=
          { s.strumState with lastPosition := some currentPosition,
                              lastTimestamp := timestamp } })
    | some lastPos =>
        let dt := (timestamp - s.strumState.lastTimestamp) / 1000
        if dt ≤ 0 then (none, s)
        else
          let movement := subtract currentPosition lastPos
          let speed := mag movement / dt
          let s1 := { s with strumState :=
            { lastPosition := some currentPosition,
              lastTimestamp := timestamp,
              velocity := speed,
              isStrumming := s.strumState.isStrumming } }
          if STRUM_SPEED_THRESHOLD < speed then
            if timestamp - s.lastStrumTime < STRUM_DEBOUNCE_MS then (none, s1)
            else
              let s2 := { s1 with lastStrumTime := timestamp }
              let normalizedVelocity := clamp (speed / STRUM_SPEED_MAX) 0 1
              let clampedString := strumStringIndex currentPosition
              let fret : ℤ := strumFret s.store clampedString
              let direction :=
                if 0 < movement.y then StrumDirection.down else StrumDirection.up
              let ev : StrumEvent :=
                { timestamp := timestamp, stringIndex := clampedString,
                  fretIndex := fret, velocity := normalizedVelocity,
                  direction := direction }
              let s3 := { s2 with store :=
                { s2.store with lastStrumEvent := some ev } }
              (some ev, (playNote v2g s3 clampedString fret normalizedVelocity
                toneNow).1)
          else (none, s1)

-- ==============================================
-- WebSocket hook (frontend/hooks/useWebSocket.ts)
-- ==============================================

/-- useWebSocket.ts `RECONNECT_DELAY` (a module-level constant; the hook does
not read `WS_CONFIG`). -/
def RECONNECT_DELAY : ℚ := 3000

/-- useWebSocket.ts `MAX_RECONNECT_ATTEMPTS`. -/
def MAX_RECONNECT_ATTEMPTS : ℕ := 5

/-- Connection-management state of the hook: the reconnect-attempt counter
and whether the persistent offline error has been raised. -/
structure WsState where
  reconnectAttempts : ℕ
  offline : Bool
deriving DecidableEq, Repr

def initWsState : WsState := { reconnectAttempts := 0, offline := false }

/-- `ws.onopen` of useWebSocket.ts: reset the attempt counter. -/
def wsOnOpen (_s : WsState) : WsState :=
  { reconnectAttempts := 0, offline := false }

/-- `ws.onclose` of useWebSocket.ts: if fewer than
`MAX_RECONNECT_ATTEMPTS` attempts have been made, increment the counter and
schedule a reconnect after `RECONNECT_DELAY` milliseconds (returned as
`some delay`); otherwise enter the offline error state and schedule
nothing. -/
def wsOnClose (s : WsState) : Option ℚ × WsState :=
  if s.reconnectAttempts < MAX_RECONNECT_ATTEMPTS then
    (some RECONNECT_DELAY,
     { s with reconnectAttempts := s.reconnectAttempts + 1 })
  else
    (none, { s with offline := true })

/-- Delays scheduled by a run of consecutive connection losses. -/
def wsCloseRun (s : WsState) : ℕ → List (Option ℚ)
  | 0 => []
  | n + 1 =>
      let (d, s') := wsOnClose s
      d :: wsCloseRun s' n

/-- Written from the spec's words (for comparison with the source): the
claimed exponential backoff, `base · 2^(attempt-1)` capped at the maximum
delay, using the base and cap of `WS_CONFIG`. -/
def specBackoffDelay (attempt : ℕ) : ℚ :=
  min (WS_CONFIG.reconnectBaseDelay * 2 ^ (attempt - 1))
    WS_CONFIG.reconnectMaxDelay

/-- `ws.onmessage` of useWebSocket.ts: an `inference_result` installs the
result, chord id and correction-active flag, and the override notes when
provided; an `inference_error` only logs. -/
def wsOnMessage (store : Store) (data : ServerMessage) : Store :=
  match data with
  | .result r =>
      { store with
        lastInferenceResult := some r
        currentChord := r.chord_id
        correctionActive := r.correction_active
        overrideNotes :=
          match r.override_notes with
          | some ns => ns
          | none => store.overrideNotes }
  | .error _ _ => store

-- ==============================================
-- Backend correction rule (backend service, not under src/)
-- ==============================================

/-- Modelled from the spec: the backend inference service is not part of the
provided sources; per the spec (§4.4) and docs/API_SCHEMA.md ("Correction
Thresholds"), it sets `correction_active` exactly when the confidence is at
least the activation threshold 0.85 (`AI_CONFIG.confidenceThreshold`). -/
def backendCorrectionActive (confidence : ℚ) : Bool :=
  decide (AI_CONFIG.confidenceThreshold ≤ confidence)

/-- Modelled from the spec: an `inference_result` as produced by the backend,
with `correction_active` computed by `backendCorrectionActive`. -/
def mkBackendResult (ts : ℚ) (chord : String) (confidence : ℚ)
    (fingering : List ℤ) (notes : Option (List ℤ)) (msg : Option String) :
    InferenceResult :=
  { timestamp := ts
    chord_id := chord
    confidence := confidence
    fingering_map := fingering
    correction_active := backendCorrectionActive confidence
    override_notes := notes
    message := msg }

-- ==============================================
-- Sessions: interleavings of recognizer messages and strum samples
-- ==============================================

/-- One input to the frame/recognition pipeline: either a server message
handled by `wsOnMessage`, or a strumming-hand sample handled by
`processStrumMovement`. -/
inductive SessionInput where
  | msg (m : ServerMessage)
  | strum (p : Point3D) (timestamp toneNow : ℚ)

/-- Applies one session input to the engine state, returning the emitted
strum event, if any. -/
def sessionStep (mag : Point3D → ℚ) (v2g : ℚ → ℚ → ℚ → ℚ → ℚ)
    (s : EngineState) : SessionInput → Option StrumEvent × EngineState
  | .msg m => (none, { s with store := wsOnMessage s.store m })
  | .strum p ts tn => processStrumMovement mag v2g s p ts tn

/-- Runs a list of session inputs, collecting the emitted strum events in
order. -/
def sessionRun (mag : Point3D → ℚ) (v2g : ℚ → ℚ → ℚ → ℚ → ℚ)
    (s : EngineState) : List SessionInput → List StrumEvent × EngineState
  | [] => ([], s)
  | i :: rest =>
      let step := sessionStep mag v2g s i
      let rest' := sessionRun mag v2g step.2 rest
      (match step.1 with
       | some e => e :: rest'.1
       | none => rest'.1, rest'.2)

-- ==============================================
-- HandTracker (frontend/components/Vision/HandTracker.tsx)
-- ==============================================

/-- LandmarkIndex.WRIST (types/landmarks.ts). -/
def WRIST : ℕ := 0

/-- LandmarkIndex.INDEX_MCP (types/landmarks.ts). -/
def INDEX_MCP : ℕ := 5

/-- LandmarkIndex.PINKY_MCP (types/landmarks.ts). -/
def PINKY_MCP : ℕ := 17

/-- The smoothed normalized 63-float vector computed by
`HandTracker.processHand` for one frame: anchor at the wrist, scale by the
palm width (substituting 0.1 when it is not positive), normalize, smooth
against `prev` with `EMA_ALPHA`, flatten.  `mag` stands for the Euclidean
`distance` of the missing `lib/math.ts` applied to the difference. -/
def processHandVector (mag : Point3D → ℚ) (landmarks : List Point3D)
    (prev : Option (List Point3D)) : List ℚ :=
  let wrist := landmarks.getD WRIST default
  let indexMcp := landmarks.getD INDEX_MCP default
  let pinkyMcp := landmarks.getD PINKY_MCP default
  let palmWidth := mag (subtract indexMcp pinkyMcp)
  let scaleFactor := if 0 < palmWidth then palmWidth else 1/10
  let normalizedLandmarks := normalizeLandmarks landmarks wrist scaleFactor
  let smoothed := smoothLandmarks normalizedLandmarks prev EMA_ALPHA
  flattenLandmarks smoothed

/-- The landmarks `HandTracker.onResults` stores for the next frame
(HandTracker.tsx lines 194-206): the freshly re-normalized raw landmarks —
`normalizeLandmarks(landmarks, wrist, distance(indexMcp, pinkyMcp) || 0.1)`
— not the smoothed output of `processHand`. -/
def onResultsStoredPrev (mag : Point3D → ℚ) (landmarks : List Point3D) :
    List Point3D :=
  let d := mag (subtract (landmarks.getD INDEX_MCP default)
    (landmarks.getD PINKY_MCP default))
  normalizeLandmarks landmarks (landmarks.getD WRIST default)
    (if d = 0 then 1/10 else d)

/-- Runs the tracker on consecutive frames of one tracked hand, starting
from smoothing state `prev`, returning the smoothed vectors it emits. -/
def trackerRun (mag : Point3D → ℚ) (prev : Option (List Point3D)) :
    List (List Point3D) → List (List ℚ)
  | [] => []
  | f :: rest =>
      processHandVector mag f prev ::
        trackerRun mag (some (onResultsStoredPrev mag f)) rest

/-- Written from the spec's words (for comparison with the source): the
recursive EMA over the per-frame raw normalized vectors,
`smoothed[t] = α·raw_normalized[t] + (1-α)·smoothed[t-1]`, with
`smoothed[t-1]` the previous frame's smoothed output, and
`smoothed[0] = raw_normalized[0]`. -/
def specEmaRun (a : ℚ) (prev : Option (List ℚ)) :
    List (List ℚ) → List (List ℚ)
  | [] => []
  | v :: rest =>
      let s :=
        match prev with
        | none => v
        | some p => List.zipWith (fun c q => a * c + (1 - a) * q) v p
      s :: specEmaRun a (some s) rest

/-- The raw normalized (unsmoothed) vector of one frame, per the spec's
normalization contract (§4.1), using `processHand`'s scale rule. -/
def rawNormalizedVector (mag : Point3D → ℚ) (landmarks : List Point3D) :
    List ℚ :=
  let wrist := landmarks.getD WRIST default
  let palmWidth := mag (subtract (landmarks.getD INDEX_MCP default)
    (landmarks.getD PINKY_MCP default))
  let scaleFactor := if 0 < palmWidth then palmWidth else 1/10
  flattenLandmarks (normalizeLandmarks landmarks wrist scaleFactor)

-- ==============================================
-- Full engine operations (for the voice-scheduler invariants)
-- ==============================================

/-- One externally triggerable engine operation (AudioEngine public
surface plus the message handler that writes the shared store). -/
inductive EngineOp where
  | play (stringIndex fret : ℤ) (velocity now : ℚ)
  | release (stringIndex : ℤ)
  | strum (p : Point3D) (timestamp toneNow : ℚ)
  | chord (fingering : List ℤ) (velocity now : ℚ)
  | message (m : ServerMessage)
  | stop
  | volume (v : ℚ)
  | muted (b : Bool)

/-- `AudioEngine.playChord(fingering, velocity)`: trigger each unmuted
string at a stagger of 20 ms (in audio-clock seconds) per string index. -/
def playChord (v2g : ℚ → ℚ → ℚ → ℚ → ℚ) (s : EngineState)
    (fingering : List ℤ) (velocity now : ℚ) : EngineState :=
  (List.enum fingering).foldl
    (fun acc fi =>
      if 0 ≤ fi.2 then
        (playNote v2g acc (fi.1 : ℤ) fi.2 velocity (now + fi.1 * 20 / 1000)).1
      else acc)
    s

/-- Applies one engine operation. -/
def applyOp (mag : Point3D → ℚ) (v2g : ℚ → ℚ → ℚ → ℚ → ℚ)
    (s : EngineState) : EngineOp → EngineState
  | .play i f vel now => (playNote v2g s i f vel now).1
  | .release i => releaseNote s i
  | .strum p ts tn => (processStrumMovement mag v2g s p ts tn).2
  | .chord fing vel now => playChord v2g s fing vel now
  | .message m => { s with store := wsOnMessage s.store m }
  | .stop => stopAll s
  | .volume v => setVolume s v
  | .muted b => { s with store := { s.store with isMuted := b } }

/-- Runs a list of engine operations from a state. -/
def runOps (mag : Point3D → ℚ) (v2g : ℚ → ℚ → ℚ → ℚ → ℚ)
    (s : EngineState) : List EngineOp → EngineState
  | [] => s
  | op :: rest => runOps mag v2g (applyOp mag v2g s op) rest

-- ==============================================
-- Concrete instances used by witnesses and counterexamples
-- ==============================================

/-- Computable absolute value on ℚ (kernel-reducible, unlike the lattice
`|·|`). -/
def qabs (x : ℚ) : ℚ := if x < 0 then -x else x

/-- Concrete magnitude instance: the L1 norm, which agrees with the
Euclidean norm of the source's `magnitude` on the axis-aligned vectors all
the concrete scenarios below use. -/
def magL1 : Point3D → ℚ := fun p => qabs p.x + qabs p.y + qabs p.z

/-- Concrete gain-mapping instance (a plain lerp; the witnesses never
depend on its value). -/
def v2g0 : ℚ → ℚ → ℚ → ℚ → ℚ := fun v mn mx _ => mn + (mx - mn) * v

/-- Engine state after one seeding observation at the origin at time 0. -/
def sSeed : EngineState :=
  { initEngine with strumState :=
      { lastPosition := some ⟨0, 0, 0⟩, lastTimestamp := 0, velocity := 0,
        isStrumming := false } }

/-- The strum event emitted from `sSeed` by the sample `(0, -1/20, 0)` at
time 100 ms: the hand moved 1/20 in 1/10 s, so speed 1/2, velocity
`clamp((1/2)/(8/10), 0, 1) = 5/8`, band `⌊(1+1/20)·6⌋ = 6` clamped to 5,
geometric fret 0, upward motion. -/
def strumEv8 : StrumEvent :=
  { timestamp := 100, stringIndex := 5, fretIndex := 0, velocity := 5/8,
    direction := StrumDirection.up }

/-- A backend result well above the activation threshold, carrying the
C-major override notes of docs/API_SCHEMA.md. -/
def cMajorResult : InferenceResult :=
  mkBackendResult 0 "C_Major" (92/100) [0, 3, 2, 0, 1, 0]
    (some [48, 52, 55, 60, 64, 67]) none

/-- Session in which the C-major result arrives with timestamp 0 and the
hand strums at time 10^6 ms — the result is then far older than any
staleness window comparable to one inference cycle (200 ms). -/
def staleTrace : List SessionInput :=
  [ .msg (.result cMajorResult),
    .strum ⟨0, 7/10, 0⟩ 999900 999,
    .strum ⟨0, 3/4, 0⟩ 1000000 1000 ]

/-- Session with no recognizer message at all: only a seeding sample and a
qualifying strum. -/
def offlineTrace : List SessionInput :=
  [ .strum ⟨0, 7/10, 0⟩ 100 0, .strum ⟨0, 3/4, 0⟩ 200 (1/5) ]

/-- The single event the offline session emits: string 1, geometric fret 0,
velocity 5/8, downward. -/
def offlineEv : StrumEvent :=
  { timestamp := 200, stringIndex := 1, fretIndex := 0, velocity := 5/8,
    direction := StrumDirection.down }

/-- The single event the stale session emits: the AI override fret 7 on
string 1 (override note 52 minus open-string MIDI 45), long after the
result arrived. -/
def staleEv : StrumEvent :=
  { timestamp := 1000000, stringIndex := 1, fretIndex := 7, velocity := 5/8,
    direction := StrumDirection.down }

/-- Input predicate: a session input that delivers an inference result. -/
def isResultMsg : SessionInput → Bool
  | .msg (.result _) => true
  | _ => false

/-- Frame of 21 landmarks with the palm fixed (wrist at the origin, index
MCP at unit distance from the pinky MCP, so the scale is 1) and landmark 1
at the origin. -/
def frameA : List Point3D :=
  [⟨0, 0, 0⟩, ⟨0, 0, 0⟩, ⟨0, 0, 0⟩, ⟨0, 0, 0⟩, ⟨0, 0, 0⟩,
   ⟨1, 0, 0⟩, ⟨0, 0, 0⟩, ⟨0, 0, 0⟩, ⟨0, 0, 0⟩, ⟨0, 0, 0⟩,
   ⟨0, 0, 0⟩, ⟨0, 0, 0⟩, ⟨0, 0, 0⟩, ⟨0, 0, 0⟩, ⟨0, 0, 0⟩,
   ⟨0, 0, 0⟩, ⟨0, 0, 0⟩, ⟨0, 0, 0⟩, ⟨0, 0, 0⟩, ⟨0, 0, 0⟩, ⟨0, 0, 0⟩]

/-- Same frame as `frameA` except landmark 1 is raised to y = 1. -/
def frameB : List Point3D :=
  [⟨0, 0, 0⟩, ⟨0, 1, 0⟩, ⟨0, 0, 0⟩, ⟨0, 0, 0⟩, ⟨0, 0, 0⟩,
   ⟨1, 0, 0⟩, ⟨0, 0, 0⟩, ⟨0, 0, 0⟩, ⟨0, 0, 0⟩, ⟨0, 0, 0⟩,
   ⟨0, 0, 0⟩, ⟨0, 0, 0⟩, ⟨0, 0, 0⟩, ⟨0, 0, 0⟩, ⟨0, 0, 0⟩,
   ⟨0, 0, 0⟩, ⟨0, 0, 0⟩, ⟨0, 0, 0⟩, ⟨0, 0, 0⟩, ⟨0, 0, 0⟩, ⟨0, 0, 0⟩]

/-- Engine state in which string 2 was triggered at audio-clock time 100. -/
def sPlayed : EngineState :=
  { initEngine with voices := initEngine.voices.set 2 ⟨true, 100, 1/2⟩ }

-- ==============================================
-- Helper lemmas
-- ==============================================

/-- All rejection branches and the success branch of `playNote` leave the
engine's structural components untouched. -/
lemma playNote_preserves (v2g : ℚ → ℚ → ℚ → ℚ → ℚ) (s : EngineState)
    (i f : ℤ) (vel now : ℚ) :
    (playNote v2g s i f vel now).1.isInitialized = s.isInitialized ∧
    (playNote v2g s i f vel now).1.voices.length = s.voices.length ∧
    (playNote v2g s i f vel now).1.lastStrumTime = s.lastStrumTime ∧
    (playNote v2g s i f vel now).1.strumState = s.strumState ∧
    (playNote v2g s i f vel now).1.store.correctionActive
      = s.store.correctionActive ∧
    (playNote v2g s i f vel now).1.store.overrideNotes
      = s.store.overrideNotes ∧
    (playNote v2g s i f vel now).1.store.isMuted = s.store.isMuted := by
  simp only [playNote]
  repeat' split
  all_goals simp [List.length_set]

/-- `releaseNote` preserves the structural components of the engine. -/
lemma releaseNote_preserves (s : EngineState) (i : ℤ) :
    (releaseNote s i).isInitialized = s.isInitialized ∧
    (releaseNote s i).voices.length = s.voices.length ∧
    (releaseNote s i).lastStrumTime = s.lastStrumTime ∧
    (releaseNote s i).store.correctionActive = s.store.correctionActive ∧
    (releaseNote s i).store.overrideNotes = s.store.overrideNotes := by
  simp only [releaseNote]
  repeat' split
  all_goals simp [List.length_set]

/-- Inversion of a `processStrumMovement` call that emits no event: the
debounce clock and the arbitration inputs are untouched. -/
lemma strum_none_inv {mag : Point3D → ℚ} {v2g : ℚ → ℚ → ℚ → ℚ → ℚ}
    {s s' : EngineState} {p : Point3D} {ts tn : ℚ}
    (h : processStrumMovement mag v2g s p ts tn = (none, s')) :
    s'.isInitialized = s.isInitialized ∧
    s'.voices.length = s.voices.length ∧
    s'.lastStrumTime = s.lastStrumTime ∧
    s'.store = s.store := by
  by_cases hInit : s.isInitialized
  · cases hq : s.strumState.lastPosition with
    | none =>
        simp only [processStrumMovement, hInit, hq] at h
        simp at h
        subst h
        exact ⟨by simp [hInit], rfl, rfl, rfl⟩
    | some q =>
        by_cases hdt : (ts - s.strumState.lastTimestamp) / 1000 ≤ 0
        · simp only [processStrumMovement, hInit, hq, if_pos hdt] at h
          simp at h
          subst h
          exact ⟨by simp [hInit], rfl, rfl, rfl⟩
        · by_cases hspd : STRUM_SPEED_THRESHOLD <
            mag (subtract p q) / ((ts - s.strumState.lastTimestamp) / 1000)
          · by_cases hdb : ts - s.lastStrumTime < STRUM_DEBOUNCE_MS
            · simp only [processStrumMovement, hInit, hq, if_neg hdt,
                if_pos hspd, if_pos hdb] at h
              simp at h
              subst h
              exact ⟨by simp [hInit], rfl, rfl, rfl⟩
            · simp only [processStrumMovement, hInit, hq, if_neg hdt,
                if_pos hspd, if_neg hdb] at h
              simp at h
          · simp only [processStrumMovement, hInit, hq, if_neg hdt,
              if_neg hspd] at h
            simp at h
            subst h
            exact ⟨by simp [hInit], rfl, rfl, rfl⟩
  · simp only [processStrumMovement, if_pos] at h
    rw [if_pos (by simpa using hInit)] at h
    simp at h
    subst h
    exact ⟨rfl, rfl, rfl, rfl⟩

/-- Inversion of a `processStrumMovement` call that emits an event: the
guards that were passed and the exact shape of the event and of the
post-state. -/
lemma strum_emit_inv {mag : Point3D → ℚ} {v2g : ℚ → ℚ → ℚ → ℚ → ℚ}
    {s s' : EngineState} {p : Point3D} {ts tn : ℚ} {e : StrumEvent}
    (h : processStrumMovement mag v2g s p ts tn = (some e, s')) :
    ∃ q, s.isInitialized = true ∧
      s.strumState.lastPosition = some q ∧
      0 < (ts - s.strumState.lastTimestamp) / 1000 ∧
      STRUM_SPEED_THRESHOLD <
        mag (subtract p q) / ((ts - s.strumState.lastTimestamp) / 1000) ∧
      STRUM_DEBOUNCE_MS ≤ ts - s.lastStrumTime ∧
      e = { timestamp := ts
            stringIndex := strumStringIndex p
            fretIndex := strumFret s.store (strumStringIndex p)
            velocity := clamp ((mag (subtract p q) /
              ((ts - s.strumState.lastTimestamp) / 1000)) / STRUM_SPEED_MAX) 0 1
            direction := if 0 < (subtract p q).y then StrumDirection.down
              else StrumDirection.up } ∧
      s'.lastStrumTime = ts ∧
      s'.isInitialized = true ∧
      s'.voices.length = s.voices.length ∧
      s'.store.correctionActive = s.store.correctionActive ∧
      s'.store.overrideNotes = s.store.overrideNotes := by
  by_cases hInit : s.isInitialized
  · cases hq : s.strumState.lastPosition with
    | none =>
        simp only [processStrumMovement, hInit, hq] at h
        simp at h
    | some q =>
        by_cases hdt : (ts - s.strumState.lastTimestamp) / 1000 ≤ 0
        · simp only [processStrumMovement, hInit, hq, if_pos hdt] at h
          simp at h
        · by_cases hspd : STRUM_SPEED_THRESHOLD <
            mag (subtract p q) / ((ts - s.strumState.lastTimestamp) / 1000)
          · by_cases hdb : ts - s.lastStrumTime < STRUM_DEBOUNCE_MS
            · simp only [processStrumMovement, hInit, hq, if_neg hdt,
                if_pos hspd, if_pos hdb] at h
              simp at h
            · simp only [processStrumMovement, hInit, hq, if_neg hdt,
                if_pos hspd, if_neg hdb] at h
              simp at h
              obtain ⟨he, hs'⟩ := h
              refine ⟨q, hInit, rfl, not_le.mp hdt, hspd, not_lt.mp hdb,
                he.symm, ?_, ?_, ?_, ?_, ?_⟩ <;> rw [← hs']
              · exact (playNote_preserves v2g _ _ _ _ _).2.2.1
              · exact ((playNote_preserves v2g _ _ _ _ _).1).trans (by simp [hInit])
              · exact (playNote_preserves v2g _ _ _ _ _).2.1
              · exact (playNote_preserves v2g _ _ _ _ _).2.2.2.2.1
              · exact (playNote_preserves v2g _ _ _ _ _).2.2.2.2.2.1
          · simp only [processStrumMovement, hInit, hq, if_neg hdt,
              if_neg hspd] at h
            simp at h
  · simp only [processStrumMovement] at h
    rw [if_pos (by simpa using hInit)] at h
    simp at h

/-- The fret resolver returns the open-string default whenever correction
is inactive or the override list does not cover the string. -/
lemma strumFret_eq_zero {store : Store} {cs : ℤ}
    (h : store.correctionActive = false ∨ (store.overrideNotes.length : ℤ) ≤ cs) :
    strumFret store cs = 0 := by
  unfold strumFret
  rcases h with h | h
  · rw [if_neg]
    rintro ⟨h1, _⟩
    simp [h] at h1
  · rw [if_neg]
    rintro ⟨_, h2⟩
    exact absurd h2 (not_lt.mpr h)

-- ==============================================
-- Claim theorems
-- ==============================================

/-- C9: the very first observation of the strumming hand produces no strum
event and only records position and time, and a sample whose elapsed time
since the previous sample is ≤ 0 is discarded: no event is emitted and the
stored strum state (indeed the whole engine state) is unchanged. -/
theorem claim_C9_first_observation_and_nonpositive_dt
    (mag : Point3D → ℚ) (v2g : ℚ → ℚ → ℚ → ℚ → ℚ) (s : EngineState)
    (p : Point3D) (ts tn : ℚ) (hInit : s.isInitialized = true) :
    (s.strumState.lastPosition = none →
      processStrumMovement mag v2g s p ts tn =
        (none, { s with strumState :=
          { s.strumState with lastPosition := some p,
                              lastTimestamp := ts } })) ∧
    (∀ q, s.strumState.lastPosition = some q →
      (ts - s.strumState.lastTimestamp) / 1000 ≤ 0 →
      processStrumMovement mag v2g s p ts tn = (none, s)) := by
  constructor
  · intro hq
    simp [processStrumMovement, hInit, hq]
  · intro q hq hdt
    simp [processStrumMovement, hInit, hq, hdt]

/-- Witness for C9 at concrete inputs: a first observation at time 5 only
seeds the strum state, and a repeated timestamp on a seeded state is a
complete no-op. -/
theorem claim_C9_witness :
    processStrumMovement magL1 v2g0 initEngine ⟨0, 0, 0⟩ 5 0 =
      (none, { initEngine with strumState :=
        { initEngine.strumState with lastPosition := some ⟨0, 0, 0⟩,
                                     lastTimestamp := 5 } }) ∧
    processStrumMovement magL1 v2g0 sSeed ⟨1, 2, 3⟩ 0 0 = (none, sSeed) :=
  ⟨(claim_C9_first_observation_and_nonpositive_dt magL1 v2g0 initEngine
      ⟨0, 0, 0⟩ 5 0 rfl).1 rfl,
   (claim_C9_first_observation_and_nonpositive_dt magL1 v2g0 sSeed
      ⟨1, 2, 3⟩ 0 0 rfl).2 ⟨0, 0, 0⟩ rfl (by norm_num [sSeed, initEngine])⟩

/-- C8: every emitted strum event carries the normalized velocity
`clamp(speed / maxSpeed, 0, 1)` (hence a velocity in [0,1]), the string
index obtained by linearly bucketing the hand's vertical position into 6
bands and clamping to [0,5], and the direction given by the sign of the
vertical displacement since the previous sample. -/
theorem claim_C8_strum_event_fields
    (mag : Point3D → ℚ) (v2g : ℚ → ℚ → ℚ → ℚ → ℚ) (s s' : EngineState)
    (p : Point3D) (ts tn : ℚ) (e : StrumEvent)
    (h : processStrumMovement mag v2g s p ts tn = (some e, s')) :
    ∃ q, s.strumState.lastPosition = some q ∧
      e.velocity = clamp ((mag (subtract p q) /
        ((ts - s.strumState.lastTimestamp) / 1000)) / STRUM_SPEED_MAX) 0 1 ∧
      0 ≤ e.velocity ∧ e.velocity ≤ 1 ∧
      e.stringIndex = clampI (Int.floor ((1 - p.y) * 6)) 0 5 ∧
      0 ≤ e.stringIndex ∧ e.stringIndex ≤ 5 ∧
      e.direction = (if 0 < (subtract p q).y then StrumDirection.down
        else StrumDirection.up) ∧
      e.timestamp = ts := by
  obtain ⟨q, _, hq, _, _, _, he, _⟩ := strum_emit_inv h
  refine ⟨q, hq, ?_, ?_, ?_, ?_, ?_, ?_, ?_, ?_⟩ <;> rw [he] <;>
    dsimp only <;> simp only [clamp, strumStringIndex, clampI]
  · exact le_min (le_max_right _ _) zero_le_one
  · exact min_le_right _ _
  · exact le_min (le_max_right _ _) (by norm_num)
  · exact min_le_right _ _

/-- Evaluation of the concrete strum scenario: from the seeded state, the
sample `(0, -1/20, 0)` at time 100 emits exactly `strumEv8`. -/
lemma strum_eval_sSeed :
    processStrumMovement magL1 v2g0 sSeed ⟨0, -1/20, 0⟩ 100 (1/10) =
      (some strumEv8,
       (processStrumMovement magL1 v2g0 sSeed ⟨0, -1/20, 0⟩ 100 (1/10)).2) := by
  have h1 : (processStrumMovement magL1 v2g0 sSeed ⟨0, -1/20, 0⟩ 100
      (1/10)).1 = some strumEv8 := by
    norm_num [processStrumMovement, sSeed, initEngine, initStore, magL1, qabs,
      subtract, clamp, strumStringIndex, clampI, strumFret,
      STRUM_SPEED_THRESHOLD, STRUM_SPEED_MAX, STRUM_DEBOUNCE_MS, strumEv8]
  rw [← h1]

/-- Witness for C8: from the seeded state, the sample `(0, -1/20, 0)` at
time 100 emits an event with velocity 5/8 ∈ [0,1], string 5 and upward
direction, matching all the claimed formulas. -/
theorem claim_C8_witness :
    ∃ q, sSeed.strumState.lastPosition = some q ∧
      strumEv8.velocity = clamp ((magL1 (subtract ⟨0, -1/20, 0⟩ q) /
        ((100 - sSeed.strumState.lastTimestamp) / 1000)) / STRUM_SPEED_MAX) 0 1 ∧
      0 ≤ strumEv8.velocity ∧ strumEv8.velocity ≤ 1 ∧
      strumEv8.stringIndex = clampI (Int.floor ((1 - (-1/20 : ℚ)) * 6)) 0 5 ∧
      0 ≤ strumEv8.stringIndex ∧ strumEv8.stringIndex ≤ 5 ∧
      strumEv8.direction = (if 0 < (subtract ⟨0, -1/20, 0⟩ q).y then
        StrumDirection.down else StrumDirection.up) ∧
      strumEv8.timestamp = 100 :=
  claim_C8_strum_event_fields magL1 v2g0 sSeed
    (processStrumMovement magL1 v2g0 sSeed ⟨0, -1/20, 0⟩ 100 (1/10)).2
    ⟨0, -1/20, 0⟩ 100 (1/10) strumEv8 strum_eval_sSeed

/-- C10: a strum resolved while AI correction is inactive, or while the
override-notes list does not cover the struck string, plays exactly fret 0
(the open-string geometric fallback). -/
theorem claim_C10_geometric_fallback_open_string
    (mag : Point3D → ℚ) (v2g : ℚ → ℚ → ℚ → ℚ → ℚ) (s s' : EngineState)
    (p : Point3D) (ts tn : ℚ) (e : StrumEvent)
    (h : processStrumMovement mag v2g s p ts tn = (some e, s'))
    (hga : s.store.correctionActive = false ∨
      (s.store.overrideNotes.length : ℤ) ≤ e.stringIndex) :
    e.fretIndex = 0 := by
  obtain ⟨q, _, _, _, _, _, he, _⟩ := strum_emit_inv h
  have hsi : e.stringIndex = strumStringIndex p := by rw [he]
  rw [he]
  show strumFret s.store (strumStringIndex p) = 0
  exact strumFret_eq_zero (by rwa [hsi] at hga)

/-- Witness for C10: the event of `claim_C8_witness`'s scenario is emitted
with correction inactive and indeed carries fret 0. -/
theorem claim_C10_witness : strumEv8.fretIndex = 0 :=
  claim_C10_geometric_fallback_open_string magL1 v2g0 sSeed
    (processStrumMovement magL1 v2g0 sSeed ⟨0, -1/20, 0⟩ 100 (1/10)).2
    ⟨0, -1/20, 0⟩ 100 (1/10) strumEv8 strum_eval_sSeed (Or.inl rfl)

/-- C6: `playNote` is a complete no-op — no note is triggered and the whole
engine state (hence the struck voice's `isPlaying`, `lastNoteTime` and
gain) is unchanged — whenever the string index is outside [0,5], the fret
is the negative mute sentinel, the call falls within the per-voice debounce
interval of that voice's own last trigger, or global mute is active. -/
theorem claim_C6_playNote_rejections
    (v2g : ℚ → ℚ → ℚ → ℚ → ℚ) (s : EngineState) (i f : ℤ) (vel now : ℚ)
    (hLen : s.voices.length = 6)
    (h : i < 0 ∨ 6 ≤ i ∨ f < 0 ∨
      now - (s.voices.getD i.toNat default).lastNoteTime <
        STRUM_DEBOUNCE_MS / 1000 ∨
      s.store.isMuted = true) :
    playNote v2g s i f vel now = (s, false) := by
  simp only [playNote]
  split
  · rfl
  · split
    · rfl
    · split
      · rfl
      · split
        · rfl
        · split
          · rfl
          · rename_i hNI hIdx hDeb hMidi hMute
            exfalso
            rcases h with h | h | h | h | h
            · exact hIdx (Or.inl h)
            · exact hIdx (Or.inr (by rw [hLen]; exact_mod_cast h))
            · exact hMidi (by simp [getFrettedMidi, h])
            · exact hDeb h
            · exact hMute h

/-- Witness for C6 at concrete inputs: string index 7 is rejected on the
fresh engine, and retriggering string 2 only 10 ms (1/100 s) after its last
trigger is rejected by the 50 ms debounce; both calls leave the state
untouched and trigger nothing. -/
theorem claim_C6_witness :
    playNote v2g0 initEngine 7 0 (1/2) 100 = (initEngine, false) ∧
    playNote v2g0 sPlayed 2 0 (1/2) (100 + 1/100) = (sPlayed, false) :=
  ⟨claim_C6_playNote_rejections v2g0 initEngine 7 0 (1/2) 100 rfl
      (Or.inr (Or.inl (by norm_num))),
   claim_C6_playNote_rejections v2g0 sPlayed 2 0 (1/2) (100 + 1/100)
      (by simp [sPlayed, initEngine, GUITAR_TUNING])
      (Or.inr (Or.inr (Or.inr (Or.inl (by
        have h2 : ((2 : ℤ)).toNat = 2 := rfl
        norm_num [sPlayed, initEngine, GUITAR_TUNING, STRUM_DEBOUNCE_MS,
          h2])))))⟩

/-- C2: for a Recognition Result produced by the (spec-modelled) backend,
the correction-active flag installed by the frontend message handler is
true exactly when the result's confidence is at least the activation
threshold 0.85; a result at exactly the threshold activates correction and
its AI override notes are installed for use by the strum resolver. -/
theorem claim_C2_confidence_threshold
    (store : Store) (ts : ℚ) (chord : String) (c : ℚ) (fing : List ℤ)
    (ns : List ℤ) (msg : Option String) :
    ((wsOnMessage store (.result (mkBackendResult ts chord c fing (some ns)
        msg))).correctionActive = true ↔ AI_CONFIG.confidenceThreshold ≤ c) ∧
    (wsOnMessage store (.result (mkBackendResult ts chord c fing (some ns)
        msg))).overrideNotes = ns ∧
    backendCorrectionActive AI_CONFIG.confidenceThreshold = true := by
  refine ⟨?_, rfl, ?_⟩
  · simp [wsOnMessage, mkBackendResult, backendCorrectionActive]
  · simp [backendCorrectionActive]

/-- Witness for C2 at the exact threshold: a result with confidence exactly
0.85 yields correction-active true and installs the C-major override
notes. -/
theorem claim_C2_witness :
    ((wsOnMessage initStore (.result (mkBackendResult 0 "C_Major" (85/100)
        [0, 3, 2, 0, 1, 0] (some [48, 52, 55, 60, 64, 67])
        none))).correctionActive = true ↔
      AI_CONFIG.confidenceThreshold ≤ (85/100 : ℚ)) ∧
    (wsOnMessage initStore (.result (mkBackendResult 0 "C_Major" (85/100)
        [0, 3, 2, 0, 1, 0] (some [48, 52, 55, 60, 64, 67])
        none))).overrideNotes = [48, 52, 55, 60, 64, 67] ∧
    backendCorrectionActive AI_CONFIG.confidenceThreshold = true :=
  claim_C2_confidence_threshold initStore 0 "C_Major" (85/100)
    [0, 3, 2, 0, 1, 0] [48, 52, 55, 60, 64, 67] none

/-- C3 (divergence witness): the hook schedules a constant 3000 ms delay on
every reconnection attempt and never doubles it — the first two scheduled
delays are equal, unlike the doubling backoff built from `WS_CONFIG`'s base
of 1000 ms and cap of 8000 ms — and after 5 attempts it stops scheduling
(persistent offline state). -/
theorem claim_C3_constant_delay_divergence :
    wsCloseRun initWsState 7 =
      [some RECONNECT_DELAY, some RECONNECT_DELAY, some RECONNECT_DELAY,
       some RECONNECT_DELAY, some RECONNECT_DELAY, none, none] ∧
    RECONNECT_DELAY = 3000 ∧
    specBackoffDelay 1 = 1000 ∧
    specBackoffDelay 2 = 2 * specBackoffDelay 1 ∧
    RECONNECT_DELAY ≠ specBackoffDelay 1 ∧
    RECONNECT_DELAY ≠ 2 * RECONNECT_DELAY ∧
    (wsOnClose { reconnectAttempts := 5, offline := true }) =
      (none, { reconnectAttempts := 5, offline := true }) := by
  refine ⟨?_, rfl, ?_, ?_, ?_, ?_, ?_⟩
  · norm_num [wsCloseRun, wsOnClose, initWsState, MAX_RECONNECT_ATTEMPTS,
      RECONNECT_DELAY]
  · norm_num [specBackoffDelay, WS_CONFIG]
  · norm_num [specBackoffDelay, WS_CONFIG]
  · norm_num [specBackoffDelay, WS_CONFIG, RECONNECT_DELAY]
  · norm_num [RECONNECT_DELAY]
  · norm_num [wsOnClose, MAX_RECONNECT_ATTEMPTS]

/-- C4 (divergence witness): on three frames of one hand whose raw
normalized landmark-1 y-coordinates are 0, 1, 0, the tracker emits 0.7 at
frame 3 for that coordinate (flat index 4), because it smooths against the
previous frame's unsmoothed normalized landmarks, whereas the spec's
recursive EMA (`smoothed[t-1]` = previous smoothed output) yields 0.21; on
the first frame the output does equal the raw normalized vector. -/
theorem claim_C4_ema_uses_raw_previous_bug :
    ((trackerRun magL1 none [frameA, frameB, frameA]).getD 2 []).getD 4 0
      = 7/10 ∧
    ((specEmaRun EMA_ALPHA none ([frameA, frameB, frameA].map
        (rawNormalizedVector magL1))).getD 2 []).getD 4 0 = 21/100 ∧
    (7/10 : ℚ) ≠ 21/100 ∧
    trackerRun magL1 none [frameA] = [rawNormalizedVector magL1 frameA] := by
  refine ⟨?_, ?_, by norm_num, ?_⟩
  · norm_num [trackerRun, processHandVector, onResultsStoredPrev,
      normalizeLandmarks, smoothLandmarks, flattenLandmarks, subtract,
      magL1, qabs, EMA_ALPHA, frameA, frameB, WRIST, INDEX_MCP, PINKY_MCP]
  · norm_num [specEmaRun, rawNormalizedVector, normalizeLandmarks,
      flattenLandmarks, subtract, magL1, qabs, EMA_ALPHA, frameA, frameB,
      WRIST, INDEX_MCP, PINKY_MCP]
  · norm_num [trackerRun, processHandVector, rawNormalizedVector,
      normalizeLandmarks, smoothLandmarks, flattenLandmarks, subtract,
      magL1, qabs, frameA, WRIST, INDEX_MCP, PINKY_MCP]

-- ==============================================
-- Debounce (C5) machinery
-- ==============================================

/-- One session step never decreases the debounce clock. -/
lemma sessionStep_lastStrumTime_mono (mag : Point3D → ℚ)
    (v2g : ℚ → ℚ → ℚ → ℚ → ℚ) (s : EngineState) (i : SessionInput) :
    s.lastStrumTime ≤ (sessionStep mag v2g s i).2.lastStrumTime := by
  cases i with
  | msg m => exact le_refl _
  | strum p ts tn =>
      rcases h : processStrumMovement mag v2g s p ts tn with ⟨ev, s'⟩
      have h2 : (sessionStep mag v2g s (.strum p ts tn)).2 = s' := by
        simp [sessionStep, h]
      rw [h2]
      cases ev with
      | none => exact le_of_eq (strum_none_inv h).2.2.1.symm
      | some e =>
          obtain ⟨q, _, _, _, _, hdb, _, hlst, _⟩ := strum_emit_inv h
          rw [hlst]
          have h50 : (0 : ℚ) < STRUM_DEBOUNCE_MS := by norm_num [STRUM_DEBOUNCE_MS]
          linarith

/-- A session step that emits an event stamps it with the new debounce
clock, at least one debounce interval after the old one. -/
lemma sessionStep_emit (mag : Point3D → ℚ) (v2g : ℚ → ℚ → ℚ → ℚ → ℚ)
    (s s' : EngineState) (i : SessionInput) (e : StrumEvent)
    (h : sessionStep mag v2g s i = (some e, s')) :
    e.timestamp = s'.lastStrumTime ∧
    s.lastStrumTime + STRUM_DEBOUNCE_MS ≤ e.timestamp := by
  cases i with
  | msg m => simp [sessionStep] at h
  | strum p ts tn =>
      have h' : processStrumMovement mag v2g s p ts tn = (some e, s') := h
      obtain ⟨q, _, _, _, _, hdb, he, hlst, _⟩ := strum_emit_inv h'
      constructor
      · rw [he, hlst]
      · rw [he]
        dsimp only
        linarith

/-- Every event emitted by a run lies at least one debounce interval after
the initial state's debounce clock. -/
lemma sessionRun_events_lb (mag : Point3D → ℚ) (v2g : ℚ → ℚ → ℚ → ℚ → ℚ) :
    ∀ (inputs : List SessionInput) (s : EngineState) (e : StrumEvent),
      e ∈ (sessionRun mag v2g s inputs).1 →
      s.lastStrumTime + STRUM_DEBOUNCE_MS ≤ e.timestamp := by
  intro inputs
  induction inputs with
  | nil => intro s e he; simp [sessionRun] at he
  | cons i rest ih =>
      intro s e he
      rcases hstep : sessionStep mag v2g s i with ⟨ev, s'⟩
      simp only [sessionRun, hstep] at he
      have hmono : s.lastStrumTime ≤ s'.lastStrumTime := by
        have := sessionStep_lastStrumTime_mono mag v2g s i
        rwa [hstep] at this
      cases ev with
      | none =>
          exact le_trans (by linarith) (ih s' e he)
      | some e0 =>
          rcases List.mem_cons.mp he with he' | he'
          · subst he'
            exact (sessionStep_emit mag v2g s s' i e hstep).2
          · exact le_trans (by linarith) (ih s' e he')

/-- C5: over any input trajectory (any interleaving of recognizer messages
and strumming-hand samples, at any speeds), the gesture detector never
emits two strum events whose timestamps differ by less than the 50 ms
debounce interval. -/
theorem claim_C5_debounce_interval
    (mag : Point3D → ℚ) (v2g : ℚ → ℚ → ℚ → ℚ → ℚ)
    (inputs : List SessionInput) :
    List.Pairwise
      (fun a b => STRUM_DEBOUNCE_MS ≤ |b.timestamp - a.timestamp|)
      (sessionRun mag v2g initEngine inputs).1 := by
  suffices hgen : ∀ (inputs : List SessionInput) (s : EngineState),
      List.Pairwise
        (fun a b => STRUM_DEBOUNCE_MS ≤ |b.timestamp - a.timestamp|)
        (sessionRun mag v2g s inputs).1 from hgen inputs initEngine
  intro inputs
  induction inputs with
  | nil => intro s; simp [sessionRun]
  | cons i rest ih =>
      intro s
      rcases hstep : sessionStep mag v2g s i with ⟨ev, s'⟩
      simp only [sessionRun, hstep]
      cases ev with
      | none => exact ih s'
      | some e0 =>
          refine List.Pairwise.cons ?_ (ih s')
          intro b hb
          have hlb := sessionRun_events_lb mag v2g rest s' b hb
          have hts := sessionStep_emit mag v2g s s' i e0 hstep
          have : e0.timestamp + STRUM_DEBOUNCE_MS ≤ b.timestamp := by
            rw [hts.1]; exact hlb
          calc STRUM_DEBOUNCE_MS ≤ b.timestamp - e0.timestamp := by linarith
            _ ≤ |b.timestamp - e0.timestamp| := le_abs_self _

-- ==============================================
-- Voice-scheduler invariants (C7) machinery
-- ==============================================

/-- The release loop of `stopAll` preserves the number of voices. -/
lemma foldlRelease_length :
    ∀ (l : List ℕ) (s : EngineState),
      ((l.foldl (fun acc i =>
        if (acc.voices.getD i default).isPlaying then releaseNote acc (i : ℤ)
        else acc) s).voices.length) = s.voices.length := by
  intro l
  induction l with
  | nil => intro s; rfl
  | cons a l ih =>
      intro s
      rw [List.foldl_cons, ih]
      split
      · exact (releaseNote_preserves s a).2.1
      · rfl

/-- `stopAll` preserves the number of voices. -/
lemma stopAll_length (s : EngineState) :
    (stopAll s).voices.length = s.voices.length := by
  unfold stopAll
  split
  · rfl
  · exact foldlRelease_length (List.range s.voices.length) s

/-- `playChord` preserves the number of voices. -/
lemma playChord_length (v2g : ℚ → ℚ → ℚ → ℚ → ℚ) (s : EngineState)
    (fingering : List ℤ) (velocity now : ℚ) :
    (playChord v2g s fingering velocity now).voices.length
      = s.voices.length := by
  unfold playChord
  generalize fingering.enum = l
  induction l generalizing s with
  | nil => rfl
  | cons a l ih =>
      rw [List.foldl_cons]
      rw [ih]
      split
      · exact (playNote_preserves v2g s (a.1 : ℤ) a.2 velocity
          (now + a.1 * 20 / 1000)).2.1
      · rfl

/-- Every engine operation preserves the number of voices. -/
lemma applyOp_length (mag : Point3D → ℚ) (v2g : ℚ → ℚ → ℚ → ℚ → ℚ)
    (s : EngineState) (op : EngineOp) :
    (applyOp mag v2g s op).voices.length = s.voices.length := by
  cases op with
  | play i f vel now => exact (playNote_preserves v2g s i f vel now).2.1
  | release i => exact (releaseNote_preserves s i).2.1
  | strum p ts tn =>
      rcases h : processStrumMovement mag v2g s p ts tn with ⟨ev, s'⟩
      have : applyOp mag v2g s (.strum p ts tn) = s' := by
        simp [applyOp, h]
      rw [this]
      cases ev with
      | none => exact (strum_none_inv h).2.1
      | some e =>
          obtain ⟨q, _, _, _, _, _, _, _, _, hlen, _⟩ := strum_emit_inv h
          exact hlen
  | chord fing vel now => exact playChord_length v2g s fing vel now
  | message m => rfl
  | stop => exact stopAll_length s
  | volume v => by_cases hi : s.isInitialized <;> simp [applyOp, setVolume, hi]
  | muted b => rfl

/-- A run of engine operations preserves the number of voices. -/
lemma runOps_length (mag : Point3D → ℚ) (v2g : ℚ → ℚ → ℚ → ℚ → ℚ) :
    ∀ (ops : List EngineOp) (s : EngineState),
      (runOps mag v2g s ops).voices.length = s.voices.length := by
  intro ops
  induction ops with
  | nil => intro s; rfl
  | cons op rest ih =>
      intro s
      show (runOps mag v2g (applyOp mag v2g s op) rest).voices.length = _
      rw [ih, applyOp_length]

/-- C7: in every state reachable from the initialized engine by any
sequence of operations, there are exactly 6 voices (one per string, so at
most one active note per string is representable and triggering a sounding
string re-uses its voice rather than adding one), the number of
simultaneously sounding voices never exceeds 6, and a further trigger
leaves the voice count at 6. -/
theorem claim_C7_polyphony_bound (mag : Point3D → ℚ)
    (v2g : ℚ → ℚ → ℚ → ℚ → ℚ) (ops : List EngineOp) :
    (runOps mag v2g initEngine ops).voices.length = 6 ∧
    ((runOps mag v2g initEngine ops).voices.countP (·.isPlaying)) ≤ 6 ∧
    ∀ i f vel now,
      ((playNote v2g (runOps mag v2g initEngine ops) i f vel
        now).1).voices.length = 6 := by
  have h6 : (runOps mag v2g initEngine ops).voices.length = 6 := by
    rw [runOps_length]
    rfl
  refine ⟨h6, ?_, ?_⟩
  · calc ((runOps mag v2g initEngine ops).voices.countP (·.isPlaying))
        ≤ (runOps mag v2g initEngine ops).voices.length :=
          List.countP_le_length _
      _ = 6 := h6
  · intro i f vel now
    rw [(playNote_preserves v2g _ i f vel now).2.1, h6]

-- ==============================================
-- Geometric-fallback (C1) machinery
-- ==============================================

/-- A session step that is not an inference result preserves the
correction-active flag. -/
lemma sessionStep_correction_inv (mag : Point3D → ℚ)
    (v2g : ℚ → ℚ → ℚ → ℚ → ℚ) (s : EngineState) (i : SessionInput)
    (hm : isResultMsg i = false) :
    (sessionStep mag v2g s i).2.store.correctionActive
      = s.store.correctionActive := by
  cases i with
  | msg m =>
      cases m with
      | result r => simp [isResultMsg] at hm
      | error c msg => rfl
  | strum p ts tn =>
      rcases h : processStrumMovement mag v2g s p ts tn with ⟨ev, s'⟩
      have h2 : (sessionStep mag v2g s (.strum p ts tn)).2 = s' := by
        simp [sessionStep, h]
      rw [h2]
      cases ev with
      | none => rw [(strum_none_inv h).2.2.2]
      | some e =>
          obtain ⟨q, _, _, _, _, _, _, _, _, _, hca, _⟩ := strum_emit_inv h
          exact hca

/-- A session step that emits an event while correction is inactive stamps
the geometric fret 0 on it. -/
lemma sessionStep_emit_fret_zero (mag : Point3D → ℚ)
    (v2g : ℚ → ℚ → ℚ → ℚ → ℚ) (s s' : EngineState) (i : SessionInput)
    (e : StrumEvent) (h : sessionStep mag v2g s i = (some e, s'))
    (hc : s.store.correctionActive = false) :
    e.fretIndex = 0 := by
  cases i with
  | msg m => simp [sessionStep] at h
  | strum p ts tn =>
      have h' : processStrumMovement mag v2g s p ts tn = (some e, s') := h
      obtain ⟨q, _, _, _, _, _, he, _⟩ := strum_emit_inv h'
      rw [he]
      show strumFret s.store (strumStringIndex p) = 0
      exact strumFret_eq_zero (Or.inl hc)

/-- In a session that delivers no inference result, the correction flag
stays down and every emitted strum keeps the geometric fret 0. -/
lemma sessionRun_geometric (mag : Point3D → ℚ) (v2g : ℚ → ℚ → ℚ → ℚ → ℚ) :
    ∀ (inputs : List SessionInput) (s : EngineState),
      s.store.correctionActive = false →
      (∀ i ∈ inputs, isResultMsg i = false) →
      (sessionRun mag v2g s inputs).2.store.correctionActive = false ∧
      ∀ e ∈ (sessionRun mag v2g s inputs).1, e.fretIndex = 0 := by
  intro inputs
  induction inputs with
  | nil =>
      intro s hc _
      exact ⟨hc, by simp [sessionRun]⟩
  | cons i rest ih =>
      intro s hc hall
      have hmi : isResultMsg i = false := hall i (List.mem_cons_self i rest)
      have hrest : ∀ j ∈ rest, isResultMsg j = false := fun j hj =>
        hall j (List.mem_cons_of_mem i hj)
      rcases hstep : sessionStep mag v2g s i with ⟨ev, s'⟩
      have hc' : s'.store.correctionActive = false := by
        have := sessionStep_correction_inv mag v2g s i hmi
        rw [hstep] at this
        rw [this, hc]
      obtain ⟨hflag, hfret⟩ := ih s' hc' hrest
      simp only [sessionRun, hstep]
      cases ev with
      | none => exact ⟨hflag, hfret⟩
      | some e0 =>
          refine ⟨hflag, ?_⟩
          intro e he
          rcases List.mem_cons.mp he with he' | he'
          · subst he'
            exact sessionStep_emit_fret_zero mag v2g s s' i e hstep hc
          · exact hfret e he'

/-- C1 (amended): for every session in which no Recognition Result is ever
delivered — in particular when the recognizer is unreachable for the whole
session — every strum resolves to the geometric open-string fallback (fret
0) and the correction-active flag remains false throughout.  (The staleness
clause of the original claim is refuted by
`claim_C1_counterexample`: the code applies no staleness window.) -/
theorem claim_C1_offline_geometric (mag : Point3D → ℚ)
    (v2g : ℚ → ℚ → ℚ → ℚ → ℚ) (inputs : List SessionInput)
    (h : ∀ i ∈ inputs, isResultMsg i = false) :
    (sessionRun mag v2g initEngine inputs).2.store.correctionActive = false ∧
    ∀ e ∈ (sessionRun mag v2g initEngine inputs).1, e.fretIndex = 0 :=
  sessionRun_geometric mag v2g inputs initEngine rfl h

/-- Witness for C1 on the concrete offline session: no message is a result,
the final flag is false and the one emitted event carries fret 0. -/
theorem claim_C1_witness :
    (sessionRun magL1 v2g0 initEngine offlineTrace).2.store.correctionActive
      = false ∧
    offlineEv.fretIndex = 0 :=
  ⟨(claim_C1_offline_geometric magL1 v2g0 offlineTrace (by decide)).1,
   (claim_C1_offline_geometric magL1 v2g0 offlineTrace (by decide)).2
     offlineEv (by
       have hrun : (sessionRun magL1 v2g0 initEngine offlineTrace).1
           = [offlineEv] := by
         norm_num [sessionRun, sessionStep, processStrumMovement, offlineTrace,
           initEngine, initStore, magL1, qabs, subtract, clamp, clampI,
           strumStringIndex, strumFret, STRUM_SPEED_THRESHOLD, STRUM_SPEED_MAX,
           STRUM_DEBOUNCE_MS, offlineEv]
       rw [hrun]
       exact List.mem_singleton_self _)⟩

/-- C1 (counterexample to the staleness clause): in `staleTrace` the only
Recognition Result arrives with timestamp 0 and the strum happens at
t = 10^6 ms, so the result is vastly older than any staleness window
comparable to one inference cycle (200 ms, `WS_CONFIG.inferenceThrottleMs`);
the original claim then demands the geometric fallback (fret 0) with
correction-active false, but the code still applies the AI override (fret
7) and keeps correction-active true: no staleness window exists in the
code. -/
theorem claim_C1_counterexample :
    (sessionRun magL1 v2g0 initEngine staleTrace).1 = [staleEv] ∧
    (sessionRun magL1 v2g0 initEngine
      staleTrace).2.store.correctionActive = true ∧
    cMajorResult.timestamp = 0 ∧
    WS_CONFIG.inferenceThrottleMs < (1000000 : ℚ) - cMajorResult.timestamp ∧
    staleEv.fretIndex ≠ 0 := by
  refine ⟨?_, ?_, rfl, ?_, ?_⟩
  · norm_num [sessionRun, sessionStep, processStrumMovement, wsOnMessage,
      staleTrace, cMajorResult, mkBackendResult, backendCorrectionActive,
      initEngine, initStore, magL1, qabs, subtract, clamp, clampI,
      strumStringIndex, strumFret, STRUM_SPEED_THRESHOLD, STRUM_SPEED_MAX,
      STRUM_DEBOUNCE_MS, GUITAR_TUNING, AI_CONFIG, staleEv]
  · norm_num [sessionRun, sessionStep, processStrumMovement, wsOnMessage,
      staleTrace, cMajorResult, mkBackendResult, backendCorrectionActive,
      initEngine, initStore, magL1, qabs, subtract, clamp, clampI,
      strumStringIndex, strumFret, STRUM_SPEED_THRESHOLD, STRUM_SPEED_MAX,
      STRUM_DEBOUNCE_MS, GUITAR_TUNING, AI_CONFIG, playNote, getFrettedMidi,
      v2g0, AUDIO_CONFIG, addActiveString, staleEv]
  · norm_num [WS_CONFIG, cMajorResult, mkBackendResult]
  · norm_num [staleEv]

end AIAR
